import Mathlib

/-!
Shallow embedding of the customer-api repository (FastAPI + SQLAlchemy service),
covering the data model (app/models/client.py), the schemas (app/schemas/client.py),
the repository layer (app/repositories/client.py), the service layer
(app/services/client_service.py), the order-event handlers
(app/infra/events/handlers.py), and the consumer dispatch (app/main.py,
app/infra/events/rabbitmq.py).  The database session is modelled as an explicit
store (a list of rows); time is an abstract instant passed in where the code
reads the clock or a server default.
-/

namespace CustomerApi

/-- Abstract timestamp instant.  The code only stores, copies and compares
datetimes; their internal structure never matters to the verified claims, so an
integer stands for a parsed datetime value. -/
abbrev Date := Int

/-- JSON-compatible values appearing in published message bodies. -/
inductive Json where
  | str : String → Json
  | num : Int → Json
  | null : Json
deriving DecidableEq

/-- Python `None`-or-int serialisation used for `order_id` fields in payloads. -/
def Json.ofOptInt : Option Int → Json
  | none => .null
  | some n => .num n

/-- Row of the `clients` table, from app/models/client.py.  Column nullability is
mirrored with `Option`; `orders_count` has server default 0 and `version` server
default 1 (the optimistic-lock column, `version_id_col`). -/
structure Client where
  id : Nat
  first_name : Option String := none
  last_name : Option String := none
  email : String
  company : Option String := none
  phone : Option String := none
  address_line1 : Option String := none
  address_line2 : Option String := none
  postal_code : Option String := none
  city : Option String := none
  state : Option String := none
  country_code : Option String := none
  created_at : Date
  updated_at : Date
  orders_count : Int := 0
  last_order_date : Option Date := none
  version : Nat := 1
deriving DecidableEq

/-- The database: the set of committed `clients` rows, in insertion order. -/
abbrev Store := List Client

/-- Lookup `db.query(Client).filter(Client.id == id).first()`. -/
def getClient (s : Store) (cid : Nat) : Option Client :=
  s.find? (fun c => c.id = cid)

/-- Commit of an in-session mutation of the row with primary key `cid`:
the stored row is replaced by the mutated object. -/
def setClient (s : Store) (cid : Nat) (c' : Client) : Store :=
  s.map (fun x => if x.id = cid then c' else x)

/-- Autoincrement primary-key assignment by the store on INSERT. -/
def nextId (s : Store) : Nat :=
  s.foldr (fun c m => max c.id m) 0 + 1

/-- Python truthiness of an optional integer id (`if not customer_id`):
`None` and `0` are falsy. -/
def truthyNat : Option Nat → Bool
  | none => false
  | some n => decide (n ≠ 0)

/-- Python truthiness of an optional integer (`if not order_id`). -/
def truthyInt : Option Int → Bool
  | none => false
  | some n => decide (n ≠ 0)

/-- Python expression `x or 0` on an integer. -/
def orZero (x : Int) : Int := if x = 0 then 0 else x

/-- Python expression `v or 0` on the integer version column, as used by the
model's `version_id_generator = lambda v: (v or 0) + 1`. -/
def orZeroN (v : Nat) : Nat := if v = 0 then 0 else v

/-- Creation payload, from `ClientCreate` in app/schemas/client.py (all fields
of `ClientBase`).  The `EmailStr` syntactic format check is not modelled; email
uniqueness is enforced by the store. -/
structure ClientCreate where
  first_name : Option String := none
  last_name : Option String := none
  email : String
  company : Option String := none
  phone : Option String := none
  address_line1 : Option String := none
  address_line2 : Option String := none
  postal_code : Option String := none
  city : Option String := none
  state : Option String := none
  country_code : Option String := none
deriving DecidableEq

/-- Pydantic `Field(min_length := lo, max_length := hi)` check on an optional
string: absent values pass, present values must have length within bounds. -/
def lenBetween (lo hi : Nat) : Option String → Bool
  | none => true
  | some s => decide (lo ≤ s.length) && decide (s.length ≤ hi)

/-- Python truthiness of an optional string (`self.first_name or ...`). -/
def truthyStr : Option String → Bool
  | none => false
  | some s => !s.isEmpty

/-- Pydantic validation of `ClientCreate`: the per-field length constraints of
`ClientBase` (notably `country_code` with min_length 2 and max_length 2, so no
truncation can ever be observed) plus the `_ensure_name_present` model
validator requiring first_name or last_name. -/
def ClientCreate.valid (d : ClientCreate) : Bool :=
  lenBetween 1 100 d.first_name &&
  lenBetween 1 100 d.last_name &&
  lenBetween 0 255 d.company &&
  lenBetween 5 32 d.phone &&
  lenBetween 0 200 d.address_line1 &&
  lenBetween 0 200 d.address_line2 &&
  lenBetween 0 20 d.postal_code &&
  lenBetween 0 100 d.city &&
  lenBetween 0 100 d.state &&
  lenBetween 2 2 d.country_code &&
  (truthyStr d.first_name || truthyStr d.last_name)

/-- Partial-update payload, from `ClientUpdate` in app/schemas/client.py with
`model_dump(exclude_unset := True)` semantics: the outer `Option` records
whether the field was supplied at all (unset fields are not applied), the inner
`Option` is the nullable column value.  Explicitly setting email to null is
rejected by the NOT NULL column constraint and is not representable here. -/
structure ClientUpdate where
  first_name : Option (Option String) := none
  last_name : Option (Option String) := none
  email : Option String := none
  company : Option (Option String) := none
  phone : Option (Option String) := none
  address_line1 : Option (Option String) := none
  address_line2 : Option (Option String) := none
  postal_code : Option (Option String) := none
  city : Option (Option String) := none
  state : Option (Option String) := none
  country_code : Option (Option String) := none
deriving DecidableEq

/-- The `setattr` loop of `update_client`: apply exactly the fields present in
`model_dump(exclude_unset := True)`, leaving all other fields untouched. -/
def applyUpdate (c : Client) (u : ClientUpdate) : Client :=
  { c with
    first_name := u.first_name.getD c.first_name
    last_name := u.last_name.getD c.last_name
    email := u.email.getD c.email
    company := u.company.getD c.company
    phone := u.phone.getD c.phone
    address_line1 := u.address_line1.getD c.address_line1
    address_line2 := u.address_line2.getD c.address_line2
    postal_code := u.postal_code.getD c.postal_code
    city := u.city.getD c.city
    state := u.state.getD c.state
    country_code := u.country_code.getD c.country_code }

/-- Outcome of `create_client` (app/repositories/client.py): the commit either
violates the unique-email constraint (IntegrityError, session rolled back, store
unchanged) or inserts the new row. -/
inductive RepoCreateResult where
  | integrityError : RepoCreateResult
  | ok : Store → Client → RepoCreateResult
deriving DecidableEq

/-- Repository `create_client`: build a `Client` from the payload fields
(`Client(**client_data.model_dump())`), add and commit.  The store assigns the
id and the server defaults (created_at, updated_at, orders_count 0, version 1);
the version generator maps the absent version to 1 on INSERT. -/
def create_client (s : Store) (d : ClientCreate) (now : Date) : RepoCreateResult :=
  if s.any (fun x => x.email = d.email) then
    .integrityError
  else
    let c : Client :=
      { id := nextId s
        first_name := d.first_name
        last_name := d.last_name
        email := d.email
        company := d.company
        phone := d.phone
        address_line1 := d.address_line1
        address_line2 := d.address_line2
        postal_code := d.postal_code
        city := d.city
        state := d.state
        country_code := d.country_code
        created_at := now
        updated_at := now
        orders_count := 0
        last_order_date := none
        version := 1 }
    .ok (s ++ [c]) c

/-- Outcome of `update_client` (app/repositories/client.py): absent row returns
None; the commit can violate the unique-email constraint (IntegrityError,
store unchanged); otherwise the mutated row is committed. -/
inductive RepoUpdateResult where
  | notFound : RepoUpdateResult
  | integrityError : RepoUpdateResult
  | ok : Store → Client → RepoUpdateResult
deriving DecidableEq

/-- Repository `update_client`: fetch the row, apply the supplied fields, and
commit.  The flush emits an UPDATE only when at least one applied field has a
net change from its stored value (SQLAlchemy attribute history compares the
new value with the loaded one and reports same-value sets as unchanged); a
no-change payload — the empty payload in particular — therefore commits
nothing and returns the row with its version and updated_at untouched
(tests/unit/test_repositories.py, test_update_client_partial).  When an UPDATE
is emitted, SQLAlchemy applies the version generator `lambda v: (v or 0) + 1`
to the stored version and the `onupdate` clock to updated_at, and the
unique-email constraint fails the commit when another row already holds the
updated email. -/
def update_client (s : Store) (cid : Nat) (u : ClientUpdate) (now : Date) :
    RepoUpdateResult :=
  match getClient s cid with
  | none => .notFound
  | some c =>
    let c1 := applyUpdate c u
    if c1 = c then
      .ok s c
    else if s.any (fun x => x.id ≠ c.id && x.email = c1.email) then
      .integrityError
    else
      let c2 := { c1 with version := orZeroN c.version + 1, updated_at := now }
      .ok (setClient s cid c2) c2

/-- Business-level failure kinds of the service layer
(app/services/client_service.py), plus the Python `AttributeError` raised when
the service reads an attribute that the model object does not define. -/
inductive SvcErr where
  | notFound : SvcErr
  | emailAlreadyExists : SvcErr
  | concurrencyConflict : SvcErr
  | attributeError : SvcErr
deriving DecidableEq

/-- A message published to the broker: routing key plus flat JSON object body. -/
structure Message where
  rk : String
  body : List (String × Json)
deriving DecidableEq

/-- Result of a service call: the raised error or the returned client. -/
inductive SvcOutcome where
  | ok : Client → SvcOutcome
  | err : SvcErr → SvcOutcome
deriving DecidableEq

/-- Full effect of a service operation: the store after the call (commits
survive a later in-flight exception), the outcome, and the published events. -/
structure SvcResult where
  store : Store
  outcome : SvcOutcome
  events : List Message
deriving DecidableEq

/-- Python attribute lookup `customer.name`.  The `Client` model
(app/models/client.py) defines the columns first_name and last_name but no
`name` column or property, so the lookup finds nothing and raises
AttributeError; `none` records that absence. -/
def Client.nameAttr (_ : Client) : Option Json := none

/-- Body of the `customer.created` event, the dict literal at
app/services/client_service.py line 89: keys id, name, email, where the name
entry holds whatever `customer.name` evaluates to. -/
def customerCreatedBody (c : Client) (nm : Json) : List (String × Json) :=
  [("id", Json.num c.id), ("name", nm), ("email", Json.str c.email)]

/-- Body of the `customer.updated` event, the dict literal at
app/services/client_service.py line 125. -/
def customerUpdatedBody (c : Client) (nm : Json) : List (String × Json) :=
  [("id", Json.num c.id), ("name", nm), ("email", Json.str c.email)]

/-- Service `CustomerService.create`: delegate to the repository; IntegrityError
becomes EmailAlreadyExists with nothing committed and nothing published; on a
committed insert the service builds the event body, reading `customer.name` —
an attribute the model does not define — so the real code raises AttributeError
after the commit and before any publish. -/
def CustomerService.create (s : Store) (d : ClientCreate) (now : Date) : SvcResult :=
  match create_client s d now with
  | .integrityError => ⟨s, .err .emailAlreadyExists, []⟩
  | .ok s2 c =>
    match c.nameAttr with
    | none => ⟨s2, .err .attributeError, []⟩
    | some nm => ⟨s2, .ok c, [⟨"customer.created", customerCreatedBody c nm⟩]⟩

/-- The optimistic-lock guard of `CustomerService.update`:
`expected_version is not None and current.version != expected_version`. -/
def expectedMismatch : Option Nat → Nat → Bool
  | none, _ => false
  | some e, v => decide (v ≠ e)

/-- Service `CustomerService.update`: fetch, check the caller-supplied expected
version before touching the row, then delegate to the repository and publish
`customer.updated` on success.  The publish reads `customer.name`, which the
model does not define, so the success path raises AttributeError after the
commit (the repository returning None after the successful fetch cannot occur
in this sequential model; the code would likewise hit an attribute error on
None there). -/
def CustomerService.update (s : Store) (cid : Nat) (u : ClientUpdate)
    (expected : Option Nat) (now : Date) : SvcResult :=
  match getClient s cid with
  | none => ⟨s, .err .notFound, []⟩
  | some current =>
    if expectedMismatch expected current.version then
      ⟨s, .err .concurrencyConflict, []⟩
    else
      match update_client s cid u now with
      | .notFound => ⟨s, .err .attributeError, []⟩
      | .integrityError => ⟨s, .err .emailAlreadyExists, []⟩
      | .ok s2 c2 =>
        match c2.nameAttr with
        | none => ⟨s2, .err .attributeError, []⟩
        | some nm => ⟨s2, .ok c2, [⟨"customer.updated", customerUpdatedBody c2 nm⟩]⟩

/-- Inbound order-event payload as read by the handlers via `payload.get`.
`created_at` holds the result of `_parse_iso` on the raw string; `none` covers
the key being absent, falsy, or unparseable (`_parse_iso` is total into
None-or-datetime). -/
structure OrderPayload where
  order_id : Option Int := none
  customer_id : Option Nat := none
  created_at : Option Date := none
deriving DecidableEq

/-- Payload substituted by the consumer for an unparseable body
(app/infra/events/rabbitmq.py line 124): the dict holds only the key `raw`,
so every `payload.get` the handlers perform returns None. -/
def rawPayload : OrderPayload := {}

/-- Effect of one handler invocation: the store after it and the events it
published. -/
structure HandlerResult where
  store : Store
  events : List Message
deriving DecidableEq

/-- The `order.rejected` publication shared by the handlers. -/
def orderRejectedMsg (oid : Option Int) (reason : String) : Message :=
  ⟨"order.rejected", [("order_id", Json.ofOptInt oid), ("reason", Json.str reason)]⟩

/-- The `order.customer_validated` publication of `handle_order_created`. -/
def orderValidatedMsg (oid : Option Int) (cid : Nat) : Message :=
  ⟨"order.customer_validated",
    [("order_id", Json.ofOptInt oid), ("customer_id", Json.num cid)]⟩

/-- Handler `handle_order_created` (app/infra/events/handlers.py lines 28-65):
falsy customer_id rejects with reason "Missing customer_id"; an unresolvable
customer_id rolls back and rejects with reason naming the id; a resolvable one
updates last_order_date when an order date was supplied, commits, and publishes
`order.customer_validated`. -/
def handle_order_created (s : Store) (p : OrderPayload) : HandlerResult :=
  if !truthyNat p.customer_id then
    ⟨s, [orderRejectedMsg p.order_id "Missing customer_id"]⟩
  else
    let cid := p.customer_id.getD 0
    match getClient s cid with
    | none =>
      ⟨s, [orderRejectedMsg p.order_id ("Customer " ++ toString cid ++ " not found")]⟩
    | some c =>
      let c2 :=
        match p.created_at with
        | some d => { c with last_order_date := some d }
        | none => c
      ⟨setClient s cid c2, [orderValidatedMsg p.order_id cid]⟩

/-- Handler `handle_order_confirmed` (handlers.py lines 68-96): missing order_id
or customer_id is logged and ignored; otherwise orders_count is incremented by
`(orders_count or 0) + 1` and last_order_date set to the order date or the
current time; never publishes anything. -/
def handle_order_confirmed (s : Store) (p : OrderPayload) (now : Date) : HandlerResult :=
  if !truthyInt p.order_id then
    ⟨s, []⟩
  else if !truthyNat p.customer_id then
    ⟨s, []⟩
  else
    let cid := p.customer_id.getD 0
    match getClient s cid with
    | none => ⟨s, []⟩
    | some c =>
      ⟨setClient s cid
        { c with
          orders_count := orZero c.orders_count + 1
          last_order_date := some (p.created_at.getD now) }, []⟩

/-- Handler `handle_order_rejected` (handlers.py lines 99-109): log only. -/
def handle_order_rejected (s : Store) (_ : OrderPayload) : HandlerResult :=
  ⟨s, []⟩

/-- Handler `handle_order_cancelled` (handlers.py lines 112-129): decrement
orders_count only when `(orders_count or 0) > 0`; never publishes. -/
def handle_order_cancelled (s : Store) (p : OrderPayload) : HandlerResult :=
  if !truthyNat p.customer_id then
    ⟨s, []⟩
  else
    let cid := p.customer_id.getD 0
    match getClient s cid with
    | none => ⟨s, []⟩
    | some c =>
      let c2 :=
        if orZero c.orders_count > 0 then
          { c with orders_count := c.orders_count - 1 }
        else c
      ⟨setClient s cid c2, []⟩

/-- Handler `handle_order_deleted` (handlers.py lines 132-149): same decrement
guard as `handle_order_cancelled`. -/
def handle_order_deleted (s : Store) (p : OrderPayload) : HandlerResult :=
  if !truthyNat p.customer_id then
    ⟨s, []⟩
  else
    let cid := p.customer_id.getD 0
    match getClient s cid with
    | none => ⟨s, []⟩
    | some c =>
      let c2 :=
        if orZero c.orders_count > 0 then
          { c with orders_count := c.orders_count - 1 }
        else c
      ⟨setClient s cid c2, []⟩

/-- Modelled from the spec: `handle_customer_validate_request` is imported by
app/main.py and exercised by tests/unit/test_handlers.py, but its definition is
absent from app/infra/events/handlers.py in the repository.  Modelled from the
reconciler table of the spec: a resolvable customer_id emits
`order.customer_validated` with no mutation (validation only); a missing or
unresolvable customer_id emits `order.rejected` with no mutation. -/
def handle_customer_validate_request (s : Store) (p : OrderPayload) : HandlerResult :=
  if !truthyNat p.customer_id then
    ⟨s, [orderRejectedMsg p.order_id "Missing customer_id"]⟩
  else
    let cid := p.customer_id.getD 0
    match getClient s cid with
    | none =>
      ⟨s, [orderRejectedMsg p.order_id ("Customer " ++ toString cid ++ " not found")]⟩
    | some _ => ⟨s, [orderValidatedMsg p.order_id cid]⟩

/-- Routing-key dispatch of `consumer_handler` in app/main.py lines 68-87. -/
def consumer_handler (s : Store) (rk : String) (p : OrderPayload) (now : Date) :
    HandlerResult :=
  if rk = "customer.validate_request" then handle_customer_validate_request s p
  else if rk = "order.created" then handle_order_created s p
  else if rk = "order.confirmed" then handle_order_confirmed s p now
  else if rk = "order.rejected" then handle_order_rejected s p
  else if rk = "order.cancelled" then handle_order_cancelled s p
  else if rk = "order.deleted" then handle_order_deleted s p
  else ⟨s, []⟩

/-- Outcome of `json.loads` on the message body in `start_consumer`
(app/infra/events/rabbitmq.py lines 121-124): a decoded payload, or failure,
in which case the code substitutes the raw-wrapped dict and still dispatches. -/
inductive InboundBody where
  | parsed : OrderPayload → InboundBody
  | malformed : InboundBody

/-- One message-processing step of `start_consumer` combined with the
`consumer_handler` dispatch of app/main.py: parse failures never drop the
message; they replace the payload with `rawPayload` and invoke the handler
(the surrounding try/except only guards against handler exceptions). -/
def consumeMessage (s : Store) (rk : String) (b : InboundBody) (now : Date) :
    HandlerResult :=
  consumer_handler s rk (match b with | .parsed p => p | .malformed => rawPayload) now

/-- Modelled from the spec: the country_code normalisation the spec describes
(trim surrounding whitespace, uppercase, truncate to 2 characters), written
over the character list of the string.  Stated only to compare the persisted
value against it; no such transformation exists in the source. -/
def specNormalizeCountryCode (s : String) : String :=
  let trimmed := ((s.data.dropWhile Char.isWhitespace).reverse.dropWhile
    Char.isWhitespace).reverse
  ⟨(trimmed.map Char.toUpper).take 2⟩

/-- A decrement-carrying order event: `order.cancelled` or `order.deleted`. -/
inductive OrderDownEvent where
  | cancelled : OrderPayload → OrderDownEvent
  | deleted : OrderPayload → OrderDownEvent

/-- Apply one decrement-carrying event to the store. -/
def applyDownEvent (s : Store) (e : OrderDownEvent) : Store :=
  match e with
  | .cancelled p => (handle_order_cancelled s p).store
  | .deleted p => (handle_order_deleted s p).store

/-- Apply a sequence of decrement-carrying events to the store. -/
def applyDownEvents (s : Store) (es : List OrderDownEvent) : Store :=
  es.foldl applyDownEvent s

/-! Concrete rows and payloads used by witnesses and counterexamples. -/

/-- A committed customer row at version 1 with zero orders. -/
def ada : Client :=
  { id := 1
    first_name := some "Ada"
    last_name := some "Lovelace"
    email := "ada@example.com"
    created_at := 0
    updated_at := 0 }

/-- The creation payload that produces `ada` on an empty store. -/
def adaCreate : ClientCreate :=
  { first_name := some "Ada"
    last_name := some "Lovelace"
    email := "ada@example.com" }

/-- A second creation payload with a fresh email. -/
def bobCreate : ClientCreate :=
  { first_name := some "Bob"
    email := "bob@example.com" }

/-- The row `bobCreate` produces on the store `[ada]`. -/
def bob : Client :=
  { id := 2
    first_name := some "Bob"
    email := "bob@example.com"
    created_at := 0
    updated_at := 0 }

/-- An update payload that changes first_name, dirtying the row. -/
def renameUpdate : ClientUpdate := { first_name := some (some "Ada2") }

/-- The row `ada` after the successful update `renameUpdate` at time 0. -/
def adaRenamed : Client := { ada with first_name := some "Ada2", version := 2 }

/-- A creation payload carrying a lowercase two-letter country code. -/
def frCreate : ClientCreate :=
  { first_name := some "Ada"
    email := "fr@example.com"
    country_code := some "fr" }

/-- The row `frCreate` produces on an empty store. -/
def frClient : Client :=
  { id := 1
    first_name := some "Ada"
    email := "fr@example.com"
    country_code := some "fr"
    created_at := 0
    updated_at := 0 }

/-- An order payload addressed to customer 1. -/
def payloadFor1 : OrderPayload := { order_id := some 5, customer_id := some 1 }

/-! Helper lemmas about the store operations. -/

theorem orZero_pos (x : Int) : 0 < orZero x ↔ 0 < x := by
  unfold orZero
  split <;> omega

theorem orZeroN_eq (v : Nat) : orZeroN v = v := by
  unfold orZeroN
  split <;> omega

theorem getClient_id {s : Store} {cid : Nat} {c : Client}
    (h : getClient s cid = some c) : c.id = cid := by
  have := List.find?_some h
  simpa using this

theorem getClient_mem {s : Store} {cid : Nat} {c : Client}
    (h : getClient s cid = some c) : c ∈ s :=
  List.mem_of_find?_eq_some h

theorem getClient_setClient {s : Store} {cid : Nat} {c : Client} (c' : Client)
    (h : getClient s cid = some c) (hid : c'.id = cid) :
    getClient (setClient s cid c') cid = some c' := by
  induction s with
  | nil => simp [getClient] at h
  | cons a t ih =>
    by_cases ha : a.id = cid
    · simp [getClient, setClient, List.find?, ha, hid]
    · have ht : getClient t cid = some c := by
        simpa [getClient, List.find?, ha] using h
      simpa [getClient, setClient, List.find?, ha] using ih ht

theorem mem_setClient {s : Store} {cid : Nat} {c' x : Client}
    (hx : x ∈ setClient s cid c') : x = c' ∨ x ∈ s := by
  rcases List.mem_map.mp hx with ⟨a, ha, hax⟩
  by_cases h : a.id = cid
  · left
    simpa [h] using hax.symm
  · right
    have : a = x := by simpa [h] using hax
    exact this ▸ ha

theorem setClient_self {s : Store} {cid : Nat} {c : Client}
    (hnd : (s.map Client.id).Nodup) (h : getClient s cid = some c) :
    setClient s cid c = s := by
  induction s with
  | nil => rfl
  | cons a t ih =>
    have hsplit : (∀ x ∈ t, ¬ x.id = a.id) ∧ (t.map Client.id).Nodup := by
      simpa using hnd
    rcases hsplit with ⟨hna, hnt⟩
    by_cases ha : a.id = cid
    · have hac : a = c := by
        simpa [getClient, List.find?, ha] using h
      have htail : t.map (fun x => if x.id = cid then c else x) = t := by
        have : ∀ x ∈ t, (if x.id = cid then c else x) = x := by
          intro x hxt
          have : x.id ≠ cid := by
            intro hx
            exact hna x hxt (hx.trans ha.symm)
          simp [this]
        calc t.map (fun x => if x.id = cid then c else x) = t.map id :=
              List.map_congr_left this
          _ = t := List.map_id t
      simp [setClient, ha, hac, htail]
    · have ht : getClient t cid = some c := by
        simpa [getClient, List.find?, ha] using h
      simpa [setClient, ha] using ih hnt ht

/-! Claim theorems. -/

/-- C1: for every customer row at stored version v and every update request
carrying an expected_version e with e distinct from v, the update fails with
ConcurrencyConflict and the stored row, its version included, is exactly as it
was before the request: the whole store is returned unchanged and no event is
published. -/
theorem update_version_mismatch_conflict
    (s : Store) (cid : Nat) (c : Client) (u : ClientUpdate) (e : Nat) (now : Date)
    (hc : getClient s cid = some c) (hv : c.version ≠ e) :
    CustomerService.update s cid u (some e) now =
      ⟨s, .err .concurrencyConflict, []⟩ := by
  have hm : expectedMismatch (some e) c.version = true := by
    simp [expectedMismatch, hv]
  simp [CustomerService.update, hc, hm]

/-- Witness for C1: on a store holding one customer at version 1, an update
with expected_version 2 is rejected with ConcurrencyConflict and the store is
untouched. -/
theorem update_version_mismatch_conflict_witness :
    getClient [ada] 1 = some ada ∧ ada.version ≠ 2 ∧
    CustomerService.update [ada] 1 {} (some 2) 0 =
      ⟨[ada], .err .concurrencyConflict, []⟩ :=
  ⟨by decide, by decide,
    update_version_mismatch_conflict [ada] 1 ada {} 2 0 (by decide) (by decide)⟩

/-- C2 counterexample: an empty update payload succeeds — `update_client`
returns the row — yet dirties no field, so the flush emits no UPDATE and the
stored version stays 1 instead of incrementing to 2; the claim that every
successful update increments the version by exactly 1 therefore fails at this
input (the repository's own test, test_update_client_partial, asserts exactly
this unchanged version). -/
theorem empty_update_version_unchanged :
    applyUpdate ada {} = ada
    ∧ update_client [ada] 1 {} 0 = .ok [ada] ada
    ∧ ada.version = 1
    ∧ ada.version ≠ ada.version + 1 :=
  ⟨by decide, by decide, by decide, by decide⟩

/-- C2 amended: the version column starts at 1 when a row is created; a
successful update whose applied fields produce a net change increments the
stored version by exactly 1, while a successful update with no net change
(the empty payload in particular) leaves the row and the store exactly
unchanged — so the version never decreases and is never skipped by more than
1 per successful update. -/
theorem version_one_at_create_and_increment_on_dirty_update
    (s : Store) (d : ClientCreate) (cid : Nat) (u : ClientUpdate) (now : Date) :
    (∀ s2 c, create_client s d now = .ok s2 c → c.version = 1)
    ∧ (∀ c s2 c2, getClient s cid = some c → update_client s cid u now = .ok s2 c2 →
        (applyUpdate c u ≠ c → c2.version = c.version + 1 ∧ getClient s2 cid = some c2)
        ∧ (applyUpdate c u = c → c2 = c ∧ s2 = s)
        ∧ (c.version ≤ c2.version ∧ c2.version ≤ c.version + 1)) := by
  constructor
  · intro s2 c h
    simp only [create_client] at h
    split at h
    · cases h
    · cases h
      rfl
  · intro c s2 c2 hg h
    simp only [update_client, hg] at h
    by_cases hch : applyUpdate c u = c
    · rw [if_pos hch] at h
      cases h
      exact ⟨fun hne => absurd hch hne, fun _ => ⟨rfl, rfl⟩, le_refl _, Nat.le_succ _⟩
    · rw [if_neg hch] at h
      split at h
      · cases h
      · cases h
        have hz : orZeroN c.version = c.version := orZeroN_eq _
        refine ⟨fun _ => ⟨?_, ?_⟩, fun hc => absurd hc hch, ?_, ?_⟩
        · show orZeroN c.version + 1 = c.version + 1
          omega
        · have hid : c.id = cid := getClient_id hg
          exact getClient_setClient _ hg hid
        · show c.version ≤ orZeroN c.version + 1
          omega
        · show orZeroN c.version + 1 ≤ c.version + 1
          omega

/-- Witness for the amended C2: creating on the store `[ada]` yields a row at
version 1, and an update that changes first_name takes ada from version 1 to
version 2, the stored row showing version 2. -/
theorem version_one_at_create_and_increment_on_dirty_update_witness :
    bob.version = 1 ∧
    (adaRenamed.version = ada.version + 1
      ∧ getClient (setClient [ada] 1 adaRenamed) 1 = some adaRenamed) :=
  ⟨(version_one_at_create_and_increment_on_dirty_update [ada] bobCreate 1 renameUpdate 0).1
      [ada, bob] bob (by decide),
    ((version_one_at_create_and_increment_on_dirty_update [ada] bobCreate 1 renameUpdate 0).2
      ada (setClient [ada] 1 adaRenamed) adaRenamed (by decide) (by decide)).1
      (by decide)⟩

/-- C3: a create request whose email matches an existing customer fails with
EmailAlreadyExists, the store is returned unchanged (no partial row), and no
customer.created event is emitted. -/
theorem create_duplicate_email_rejected
    (s : Store) (d : ClientCreate) (now : Date) (c0 : Client)
    (hc : c0 ∈ s) (he : c0.email = d.email) :
    CustomerService.create s d now = ⟨s, .err .emailAlreadyExists, []⟩ := by
  have hany : s.any (fun x => x.email = d.email) = true :=
    List.any_eq_true.mpr ⟨c0, hc, by simp [he]⟩
  simp [CustomerService.create, create_client, hany]

/-- Witness for C3: creating a second customer with the email of `ada` on the
store `[ada]` fails with EmailAlreadyExists, leaving the store unchanged and
emitting nothing. -/
theorem create_duplicate_email_rejected_witness :
    ada ∈ [ada] ∧ ada.email = adaCreate.email ∧
    CustomerService.create [ada] adaCreate 0 = ⟨[ada], .err .emailAlreadyExists, []⟩ :=
  ⟨by decide, by decide,
    create_duplicate_email_rejected [ada] adaCreate 0 ada (by decide) (by decide)⟩

/-- C4 counterexample: an order.created payload carrying customer_id 0 — an id
that resolves to no existing customer — is classified by the truthiness check
`if not customer_id` as missing, so the single order.rejected event carries the
reason "Missing customer_id" rather than a reason naming customer 0; the claim
as stated therefore fails at this input. -/
theorem order_created_zero_customer_id_reason :
    getClient [ada] 0 = none
    ∧ handle_order_created [ada] { order_id := some 77, customer_id := some 0 } =
        ⟨[ada], [orderRejectedMsg (some 77) "Missing customer_id"]⟩
    ∧ "Missing customer_id" ≠ "Customer " ++ toString (0 : Nat) ++ " not found" :=
  ⟨by decide, by decide, by decide⟩

/-- C4 amended: for every order.created event whose customer_id is present and
nonzero but resolves to no existing customer, handling yields exactly one
order.rejected event whose reason names that customer id, and the store is
returned unchanged (zero mutations to any customer row). -/
theorem order_created_unresolvable_rejected
    (s : Store) (p : OrderPayload) (cid : Nat)
    (hp : p.customer_id = some cid) (h0 : cid ≠ 0) (hu : getClient s cid = none) :
    handle_order_created s p =
      ⟨s, [orderRejectedMsg p.order_id ("Customer " ++ toString cid ++ " not found")]⟩ := by
  simp [handle_order_created, hp, truthyNat, h0, hu]

/-- Witness for the amended C4: an order.created event for the nonexistent
customer 9999 on the store `[ada]` yields exactly the order.rejected event
naming customer 9999 and leaves the store unchanged. -/
theorem order_created_unresolvable_rejected_witness :
    ({ order_id := some 77, customer_id := some 9999 : OrderPayload }).customer_id
        = some 9999
    ∧ (9999 : Nat) ≠ 0
    ∧ getClient [ada] 9999 = none
    ∧ handle_order_created [ada] { order_id := some 77, customer_id := some 9999 } =
        ⟨[ada], [orderRejectedMsg (some 77) "Customer 9999 not found"]⟩ :=
  ⟨by decide, by decide, by decide,
    order_created_unresolvable_rejected [ada]
      { order_id := some 77, customer_id := some 9999 } 9999
      (by decide) (by decide) (by decide)⟩

/-- C6: evaluation of the create path at a valid creation payload.  The row is
committed, but the customer.created publication never happens: the service
builds the event body from `customer.name`, an attribute the Client model does
not define (the model has first_name and last_name), so the create raises
AttributeError after the commit, no event is emitted, and the event body the
code attempts to build holds exactly the keys id, name, email — never
first_name or last_name as the claim requires. -/
theorem customer_created_event_lacks_name_fields :
    CustomerService.create [] adaCreate 0 = ⟨[ada], .err .attributeError, []⟩
    ∧ ada.nameAttr = none
    ∧ (∀ nm, (customerCreatedBody ada nm).map Prod.fst = ["id", "name", "email"])
    ∧ "first_name" ∉ (customerCreatedBody ada Json.null).map Prod.fst
    ∧ "last_name" ∉ (customerCreatedBody ada Json.null).map Prod.fst :=
  ⟨by decide, rfl, fun _ => rfl, by decide, by decide⟩

/-- C7 counterexample: the payload `frCreate` carries the country code "fr",
passes schema validation (pydantic only checks that the length is exactly 2),
and the created row stores "fr" verbatim, while the normalisation the claim
describes would store "FR"; the claim as stated therefore fails at this
input. -/
theorem country_code_not_normalized_counterexample :
    frCreate.valid = true
    ∧ create_client [] frCreate 0 = .ok [frClient] frClient
    ∧ frClient.country_code = some "fr"
    ∧ specNormalizeCountryCode "fr" = "FR"
    ∧ some "fr" ≠ some "FR" :=
  ⟨by decide, by decide, by decide, by rfl, by decide⟩

/-- C7 amended: the create operation performs no country_code normalisation at
all — whatever country_code the payload carries is persisted verbatim — and the
schema (not the create path) constrains present country codes to have length
exactly 2, so truncation can never be observed. -/
theorem country_code_persisted_verbatim
    (s : Store) (d : ClientCreate) (now : Date) (s2 : Store) (c : Client)
    (h : create_client s d now = .ok s2 c) :
    c.country_code = d.country_code
    ∧ (d.valid = true → ∀ cc, d.country_code = some cc → cc.length = 2) := by
  constructor
  · simp only [create_client] at h
    split at h
    · cases h
    · cases h
      rfl
  · intro hv cc hcc
    have h2 : lenBetween 2 2 d.country_code = true := by
      simp only [ClientCreate.valid, Bool.and_eq_true] at hv
      exact hv.1.2
    rw [hcc] at h2
    simp only [lenBetween, Bool.and_eq_true, decide_eq_true_eq] at h2
    omega

/-- Witness for the amended C7: creating from `frCreate` persists the country
code "fr" exactly as supplied, and the schema forces its length to be 2. -/
theorem country_code_persisted_verbatim_witness :
    frClient.country_code = frCreate.country_code ∧ "fr".length = 2 :=
  ⟨(country_code_persisted_verbatim [] frCreate 0 [frClient] frClient (by decide)).1,
    (country_code_persisted_verbatim [] frCreate 0 [frClient] frClient (by decide)).2
      (by decide) "fr" (by decide)⟩

/-- Every row in the store after `handle_order_cancelled` has a non-negative
orders_count when every row before it did: the decrement is guarded by
`(orders_count or 0) > 0`. -/
theorem cancelled_store_nonneg (s : Store) (p : OrderPayload)
    (h : ∀ c ∈ s, 0 ≤ c.orders_count) :
    ∀ c ∈ (handle_order_cancelled s p).store, 0 ≤ c.orders_count := by
  intro c hc
  unfold handle_order_cancelled at hc
  cases ht : truthyNat p.customer_id with
  | false =>
    rw [ht] at hc
    exact h c (by simpa using hc)
  | true =>
    rw [ht] at hc
    simp only [Bool.not_true, Bool.false_eq_true, if_false] at hc
    cases hg : getClient s (p.customer_id.getD 0) with
    | none =>
      simp only [hg] at hc
      exact h c hc
    | some c0 =>
      simp only [hg] at hc
      rcases mem_setClient hc with rfl | hcs
      · have hc0 : 0 ≤ c0.orders_count := h c0 (getClient_mem hg)
        by_cases hpos : orZero c0.orders_count > 0
        · have : 0 < c0.orders_count := (orZero_pos _).mp hpos
          simp only [hpos, if_true]
          omega
        · simp only [hpos, if_false]
          exact hc0
      · exact h c hcs

/-- Every row in the store after `handle_order_deleted` has a non-negative
orders_count when every row before it did. -/
theorem deleted_store_nonneg (s : Store) (p : OrderPayload)
    (h : ∀ c ∈ s, 0 ≤ c.orders_count) :
    ∀ c ∈ (handle_order_deleted s p).store, 0 ≤ c.orders_count := by
  intro c hc
  unfold handle_order_deleted at hc
  cases ht : truthyNat p.customer_id with
  | false =>
    rw [ht] at hc
    exact h c (by simpa using hc)
  | true =>
    rw [ht] at hc
    simp only [Bool.not_true, Bool.false_eq_true, if_false] at hc
    cases hg : getClient s (p.customer_id.getD 0) with
    | none =>
      simp only [hg] at hc
      exact h c hc
    | some c0 =>
      simp only [hg] at hc
      rcases mem_setClient hc with rfl | hcs
      · have hc0 : 0 ≤ c0.orders_count := h c0 (getClient_mem hg)
        by_cases hpos : orZero c0.orders_count > 0
        · have : 0 < c0.orders_count := (orZero_pos _).mp hpos
          simp only [hpos, if_true]
          omega
        · simp only [hpos, if_false]
          exact hc0
      · exact h c hcs

/-- Non-negativity is preserved by any sequence of order.cancelled and
order.deleted events. -/
theorem downEvents_nonneg (es : List OrderDownEvent) :
    ∀ s : Store, (∀ c ∈ s, 0 ≤ c.orders_count) →
      ∀ c ∈ applyDownEvents s es, 0 ≤ c.orders_count := by
  induction es with
  | nil =>
    intro s hs
    simpa [applyDownEvents] using hs
  | cons e rest ih =>
    intro s hs
    have hstep : ∀ c ∈ applyDownEvent s e, 0 ≤ c.orders_count := by
      cases e with
      | cancelled p => exact cancelled_store_nonneg s p hs
      | deleted p => exact deleted_store_nonneg s p hs
    have := ih (applyDownEvent s e) hstep
    simpa [applyDownEvents] using this

/-- C5: under any sequence of order.cancelled and order.deleted events, the
orders_count of every customer stays non-negative, and a decrement addressed to
a customer whose orders_count is 0 is a no-op — the store is returned exactly
unchanged and nothing is published, rather than an error being raised. -/
theorem orders_count_never_negative
    (s : Store) (es : List OrderDownEvent)
    (hs : ∀ c ∈ s, 0 ≤ c.orders_count) :
    (∀ c ∈ applyDownEvents s es, 0 ≤ c.orders_count)
    ∧ (∀ (cid : Nat) (c : Client) (p : OrderPayload),
        (s.map Client.id).Nodup → getClient s cid = some c → c.orders_count = 0 →
        p.customer_id = some cid →
        handle_order_cancelled s p = ⟨s, []⟩ ∧ handle_order_deleted s p = ⟨s, []⟩) := by
  constructor
  · exact downEvents_nonneg es s hs
  · intro cid c p hnd hg hz hp
    by_cases h0 : cid = 0
    · subst h0
      constructor
      · simp [handle_order_cancelled, hp, truthyNat]
      · simp [handle_order_deleted, hp, truthyNat]
    · have hself := setClient_self hnd hg
      constructor
      · simp [handle_order_cancelled, hp, truthyNat, h0, hg, hz, orZero, hself]
      · simp [handle_order_deleted, hp, truthyNat, h0, hg, hz, orZero, hself]

/-- Witness for C5: on a store holding one customer with orders_count 0,
applying an order.cancelled followed by an order.deleted keeps every
orders_count non-negative, and each single decrement is a no-op returning the
store unchanged with nothing published. -/
theorem orders_count_never_negative_witness :
    (∀ c ∈ applyDownEvents [ada] [.cancelled payloadFor1, .deleted payloadFor1],
        0 ≤ c.orders_count)
    ∧ (handle_order_cancelled [ada] payloadFor1 = ⟨[ada], []⟩
        ∧ handle_order_deleted [ada] payloadFor1 = ⟨[ada], []⟩) :=
  ⟨(orders_count_never_negative [ada]
      [.cancelled payloadFor1, .deleted payloadFor1] (by decide)).1,
    (orders_count_never_negative [ada]
      [.cancelled payloadFor1, .deleted payloadFor1] (by decide)).2
      1 ada payloadFor1 (by decide) (by decide) (by decide) (by decide)⟩

/-- C8: handling a customer.validate_request event mutates no customer row and
emits exactly one outcome event — order.customer_validated when the customer_id
resolves to an existing customer, order.rejected when it is missing or
unresolvable.  Proved against the spec-modelled handler, since its definition
is absent from the handlers module of the repository. -/
theorem validate_request_single_outcome_no_mutation
    (s : Store) (p : OrderPayload) :
    (handle_customer_validate_request s p).store = s
    ∧ (handle_customer_validate_request s p).events.length = 1
    ∧ ((∃ cid, p.customer_id = some cid ∧ cid ≠ 0 ∧ (getClient s cid).isSome) →
        (handle_customer_validate_request s p).events.map Message.rk =
          ["order.customer_validated"])
    ∧ ((∀ cid, p.customer_id = some cid → cid ≠ 0 → getClient s cid = none) →
        (handle_customer_validate_request s p).events.map Message.rk =
          ["order.rejected"]) := by
  cases hcid : p.customer_id with
  | none =>
    refine ⟨?_, ?_, ?_, ?_⟩ <;>
      simp [handle_customer_validate_request, truthyNat, hcid, orderRejectedMsg]
  | some cid =>
    by_cases h0 : cid = 0
    · subst h0
      refine ⟨?_, ?_, ?_, ?_⟩ <;>
        simp [handle_customer_validate_request, truthyNat, hcid, orderRejectedMsg]
    · cases hg : getClient s cid with
      | none =>
        refine ⟨?_, ?_, ?_, ?_⟩ <;>
          simp [handle_customer_validate_request, truthyNat, hcid, h0, hg,
            orderRejectedMsg]
      | some c =>
        refine ⟨?_, ?_, ?_, ?_⟩ <;>
          simp [handle_customer_validate_request, truthyNat, hcid, h0, hg,
            orderValidatedMsg]

/-- Witness for C8: a validate request for the existing customer 1 leaves the
store `[ada]` unchanged and emits exactly the order.customer_validated event;
the hypotheses of the resolvable branch are discharged at this input. -/
theorem validate_request_single_outcome_no_mutation_witness :
    (handle_customer_validate_request [ada] payloadFor1).store = [ada]
    ∧ (handle_customer_validate_request [ada] payloadFor1).events.length = 1
    ∧ (handle_customer_validate_request [ada] payloadFor1).events.map Message.rk =
        ["order.customer_validated"] :=
  ⟨(validate_request_single_outcome_no_mutation [ada] payloadFor1).1,
    (validate_request_single_outcome_no_mutation [ada] payloadFor1).2.1,
    (validate_request_single_outcome_no_mutation [ada] payloadFor1).2.2.1
      ⟨1, by decide, by decide, by decide⟩⟩

/-- C9 counterexample: a message with routing key order.created whose body is
unparseable is not dropped — the consumer substitutes the raw-wrapped payload
and invokes the handler, which emits an order.rejected event; the claim that no
handler side effect occurs and no outbound event is emitted therefore fails at
this input. -/
theorem malformed_body_emits_event_counterexample :
    consumeMessage [ada] "order.created" .malformed 0 =
      ⟨[ada], [orderRejectedMsg none "Missing customer_id"]⟩
    ∧ (consumeMessage [ada] "order.created" .malformed 0).events ≠ [] :=
  ⟨by decide, by decide⟩

/-- C9 amended: an unparseable message body never crashes the consumer and
never mutates any customer row — the handler is invoked with the placeholder
payload carrying only the raw body, and for every routing key the store is
returned unchanged (though, contrary to the claim, an outbound order.rejected
event is emitted for order.created and customer.validate_request). -/
theorem malformed_body_no_row_mutation (s : Store) (rk : String) (now : Date) :
    (consumeMessage s rk .malformed now).store = s := by
  unfold consumeMessage consumer_handler
  split_ifs <;> rfl

/-- C10: an order.confirmed event whose payload lacks an order_id returns
before touching the customer lookup — even when the customer_id would resolve —
so the store is returned exactly unchanged (every orders_count and
last_order_date untouched) and no event is emitted. -/
theorem order_confirmed_missing_order_id_noop
    (s : Store) (p : OrderPayload) (now : Date) (h : p.order_id = none) :
    handle_order_confirmed s p now = ⟨s, []⟩ := by
  simp [handle_order_confirmed, truthyInt, h]

/-- Witness for C10: an order.confirmed payload without order_id but with the
resolvable customer_id 1 leaves the store `[ada]` unchanged and emits
nothing. -/
theorem order_confirmed_missing_order_id_noop_witness :
    getClient [ada] 1 = some ada
    ∧ handle_order_confirmed [ada] { customer_id := some 1 } 0 = ⟨[ada], []⟩ :=
  ⟨by decide,
    order_confirmed_missing_order_id_noop [ada] { customer_id := some 1 } 0 (by decide)⟩

end CustomerApi
